import Mathlib

/-!
Shallow embedding of the AI-Heirloom-Restore backend (`backend/server.py`)
and proofs about its restoration orchestration pipeline.

Modelling conventions:
* Python byte strings are `List Nat` (`Bytes`); only lengths and equality
  of byte sequences matter to the properties proved here.
* Python strings are Lean `String`; `None`-able strings are `Option String`
  with Python truthiness (`None` and `""` are falsy) modelled by `strTruthy`.
* `fastapi.HTTPException` is a structure carrying `status_code` and `detail`;
  the string form of an exception follows the Starlette format code-colon-detail.
* The network is abstracted: each adapter call receives the provider
  response (or transport failure) as an explicit argument; everything the
  code does with that response is embedded faithfully.
* `base64.b64decode` (CPython, `validate=False`) is modelled for inputs drawn
  from the regex alphabet `[A-Za-z0-9+/=]`: groups of four symbols, `=`
  padding accepted at the end of the input (CPython additionally ignores
  data after a padding group; no input considered here has one).
* Wall-clock durations are abstract `Nat` ticks; MongoDB is a `List` of
  records with `insert_one` = append and `update_one` = update of the first
  record matching the id; the blob filesystem is an association list.
-/

namespace Heirloom

/-- Python byte strings. -/
abbrev Bytes := List Nat

/-- Job status strings used by `server.py`: processing, completed, failed. -/
inductive Status where
  | processing
  | completed
  | failed
deriving DecidableEq, Repr

/-- Model of the `PhotoRestoration` pydantic class (server.py lines 60-67).
`created_at` is omitted (never branched on); `processing_time` is an
abstract tick count instead of a float duration. -/
structure PhotoRestoration where
  id : String
  original_filename : String
  restored_filename : String
  status : Status
  processing_time : Option Nat
  error_message : Option String
deriving DecidableEq, Repr

/-- Model of `fastapi.HTTPException`: a status code plus a detail message. -/
structure HTTPException where
  status_code : Nat
  detail : String
deriving DecidableEq, Repr

/-- String form of an `HTTPException`, as the Starlette `__str__` produces it. -/
def excStr (e : HTTPException) : String :=
  toString e.status_code ++ ": " ++ e.detail

/-- Python truthiness of an optional string: `None` and `""` are falsy. -/
def strTruthy : Option String → Bool
  | none => false
  | some s => !(s == "")

/-- Python `a or b` on optional strings: keep `a` when truthy, else `b`. -/
def pyOr (a b : Option String) : Option String :=
  if strTruthy a then a else b

/-- Python `a or d` for a string default (used for `file.filename or "unknown.jpg"`). -/
def pyOrD (a : Option String) (d : String) : String :=
  match a with
  | some s => if s == "" then d else s
  | none => d

/-- Python `s.startswith(pre)`. -/
def pyStartsWith (s pre : String) : Bool :=
  pre.data.isPrefixOf s.data

/-- Ambient configuration read from the environment in `server.py`. -/
structure Env where
  OPENROUTER_API_KEY : Option String
  GOOGLE_API_KEY : Option String
deriving Repr

/-- Value of one base64 alphabet symbol, `none` for non-alphabet characters
(`=` is handled separately as padding). -/
def b64CharVal (c : Char) : Option Nat :=
  if c.isUpper then some (c.toNat - 65)
  else if c.isLower then some (c.toNat - 97 + 26)
  else if c.isDigit then some (c.toNat - 48 + 52)
  else if c == '+' then some 62
  else if c == '/' then some 63
  else none

/-- Decode base64 in groups of four symbols; padding `=` only at the end,
mirroring CPython `base64.b64decode` on alphabet-only input. `none` models
a raised `binascii.Error`. -/
def decodeQuads : List Char → Option Bytes
  | [] => some []
  | a :: b :: c :: d :: rest =>
    match b64CharVal a, b64CharVal b with
    | some va, some vb =>
      if c == '=' then
        if d == '=' && rest.isEmpty then
          some [va * 4 + vb / 16]
        else none
      else
        match b64CharVal c with
        | some vc =>
          if d == '=' then
            if rest.isEmpty then
              some [va * 4 + vb / 16, (vb % 16) * 16 + vc / 4]
            else none
          else
            match b64CharVal d with
            | some vd =>
              match decodeQuads rest with
              | some tl =>
                some ((va * 4 + vb / 16) :: ((vb % 16) * 16 + vc / 4) ::
                      ((vc % 4) * 64 + vd) :: tl)
              | none => none
            | none => none
        | none => none
    | _, _ => none
  | _ => none

/-- Model of `base64.b64decode` on a candidate payload. -/
def pyB64decode (s : List Char) : Option Bytes :=
  decodeQuads s

/-- Character class `[A-Za-z0-9+/=]` of the data-URI regex payload group. -/
def isB64Char (c : Char) : Bool :=
  c.isUpper || c.isLower || c.isDigit || c == '+' || c == '/' || c == '='

/-- Match a literal prefix, returning the remaining characters. -/
def dropPrefixQ : List Char → List Char → Option (List Char)
  | [], l => some l
  | _ :: _, [] => none
  | p :: ps, c :: cs => if p == c then dropPrefixQ ps cs else none

/-- The literal head of the data-URI regex. -/
def litDataImage : List Char := "data:image/".data

/-- The literal between the subtype and the payload of the data-URI regex. -/
def litBase64Sep : List Char := ";base64,".data

/-- Try to match `data:image/[^;]+;base64,([A-Za-z0-9+/=]+)` anchored at the
head of `l`; on success return the captured payload and the characters after
the whole match. -/
def tryMatchAt (l : List Char) : Option (List Char × List Char) :=
  match dropPrefixQ litDataImage l with
  | none => none
  | some r1 =>
    let sub := r1.takeWhile (fun c => !(c == ';'))
    let r2 := r1.dropWhile (fun c => !(c == ';'))
    if sub.isEmpty then none
    else
      match dropPrefixQ litBase64Sep r2 with
      | none => none
      | some r3 =>
        let payload := r3.takeWhile isB64Char
        if payload.isEmpty then none
        else some (payload, r3.dropWhile isB64Char)

theorem dropPrefixQ_length :
    ∀ (p l r : List Char), dropPrefixQ p l = some r → r.length + p.length = l.length := by
  intro p
  induction p with
  | nil =>
    intro l r h
    simp [dropPrefixQ] at h
    simp [h]
  | cons x xs ih =>
    intro l r h
    cases l with
    | nil => simp [dropPrefixQ] at h
    | cons c cs =>
      simp only [dropPrefixQ] at h
      by_cases hx : (x == c) = true
      · simp [hx] at h
        have := ih cs r h
        simp [List.length_cons]
        omega
      · simp [hx] at h

theorem tryMatchAt_length (l p r : List Char)
    (h : tryMatchAt l = some (p, r)) : r.length < l.length := by
  unfold tryMatchAt at h
  cases h1 : dropPrefixQ litDataImage l with
  | none => rw [h1] at h; simp at h
  | some r1 =>
    rw [h1] at h
    simp only at h
    by_cases hsub : (r1.takeWhile (fun c => !(c == ';'))).isEmpty
    · rw [if_pos hsub] at h; simp at h
    · rw [if_neg hsub] at h
      cases h2 : dropPrefixQ litBase64Sep (r1.dropWhile (fun c => !(c == ';'))) with
      | none => rw [h2] at h; simp at h
      | some r3 =>
        rw [h2] at h
        simp only at h
        by_cases hpay : (r3.takeWhile isB64Char).isEmpty
        · rw [if_pos hpay] at h; simp at h
        · rw [if_neg hpay] at h
          simp only [Option.some.injEq, Prod.mk.injEq] at h
          have hlen1 := dropPrefixQ_length _ _ _ h1
          have hlen2 := dropPrefixQ_length _ _ _ h2
          have hd1 : (r1.dropWhile (fun c => !(c == ';'))).length ≤ r1.length :=
            (List.dropWhile_suffix _).length_le
          have hd2 : (r3.dropWhile isB64Char).length ≤ r3.length :=
            (List.dropWhile_suffix _).length_le
          have hr : r = r3.dropWhile isB64Char := h.2.symm
          have hlit1 : litDataImage.length = 11 := by decide
          have hlit2 : litBase64Sep.length = 8 := by decide
          rw [hr]
          omega

/-- Fuel-indexed scan for `re.findall`. One unit of fuel is spent per scan
position; by `tryMatchAt_length` a successful match strictly shrinks the
remaining input, so `l.length` fuel always suffices and the fuel never runs
out before the input is exhausted. -/
def findAllAux : Nat → List Char → List (List Char)
  | 0, _ => []
  | _ + 1, [] => []
  | fuel + 1, c :: rest =>
    match tryMatchAt (c :: rest) with
    | some pr => pr.1 :: findAllAux fuel pr.2
    | none => findAllAux fuel rest

/-- Model of `re.findall` for the pattern `data:image/[^;]+;base64,([A-Za-z0-9+/=]+)`:
left-to-right, non-overlapping matches, greedy runs; returns the list of
captured payload groups. -/
def findAllDataURI (l : List Char) : List (List Char) :=
  findAllAux l.length l

/-- One element of a list-shaped OpenRouter message `content`. A `dict` item
carries the value of its `type` key and of `item.get("image_url", dict()).get("url", "")`
(defaulting to the empty string); `nondict` is any non-dict element. -/
inductive ORItem where
  | dict (type : Option String) (image_url_url : String)
  | nondict
deriving DecidableEq, Repr

/-- The `message.content` field of an OpenRouter choice: a string, a list of
typed parts, or anything else (which the extractor ignores). -/
inductive ORContent where
  | str (s : String)
  | list (items : List ORItem)
  | other
deriving DecidableEq, Repr

/-- One element of the `choices` list, reduced to the fields the code reads:
`choices[i].get("message", dict()).get("content", "")`. -/
structure ORChoice where
  content : ORContent
deriving DecidableEq, Repr

/-- A parsed OpenRouter chat-completions response body, reduced to the fields
the extractor reads. -/
structure ORResult where
  choices : List ORChoice
deriving DecidableEq, Repr

/-- Model of `url.split(",")[1]`: the characters strictly between the first comma and
the second comma (or the end); `none` models the `IndexError` raised when the
string has no comma. -/
def splitSecond (s : String) : Option String :=
  match s.data.dropWhile (fun c => !(c == ',')) with
  | [] => none
  | _ :: afterFirst => some (String.mk (afterFirst.takeWhile (fun c => !(c == ','))))

/-- The `for item in content` loop of the list branch (server.py lines 395-407):
a decode failure (or missing comma) is caught and the loop continues with the
next item. -/
def scanListItems : List ORItem → Option Bytes
  | [] => none
  | ORItem.dict ty url :: rest =>
    if ty == some "image_url" then
      if pyStartsWith url "data:image/" then
        match splitSecond url with
        | some b64str =>
          match pyB64decode b64str.data with
          | some bs => some bs
          | none => scanListItems rest
        | none => scanListItems rest
      else scanListItems rest
    else scanListItems rest
  | ORItem.nondict :: rest => scanListItems rest

/-- Model of `_extract_generated_image_from_openrouter_response` (server.py lines
366-413). String content: `re.findall` of the data-URI pattern, then
`b64decode` of `matches[0]` only — a decode failure falls through to
`return None`. List content: `scanListItems`. Anything else: `None`. -/
def extract_generated_image_from_openrouter_response (result : ORResult) : Option Bytes :=
  match result.choices with
  | [] => none
  | choice :: _ =>
    match choice.content with
    | ORContent.str s =>
      match findAllDataURI s.data with
      | [] => none
      | m :: _ =>
        match pyB64decode m with
        | some bs => some bs
        | none => none
    | ORContent.list items => scanListItems items
    | ORContent.other => none

/-- The outcome of the `requests.post` call inside `_restore_with_openrouter`:
either an HTTP response (status code, raw text, parsed JSON body) or a
`requests.exceptions.RequestException`. -/
inductive NetResult where
  | resp (status_code : Nat) (text : String) (result : ORResult)
  | netExn (msg : String)
deriving Repr

/-- Model of `_restore_with_openrouter` (server.py lines 152-272), given the outcome of
its single network call. 200: extract, else 502 no-image; 429: quota; 401:
403 invalid key; other status: 502 with the raw response text; transport
failure: 502 network error. -/
def restore_with_openrouter (image_data : Bytes) (filename : String)
    (net : NetResult) : Except HTTPException Bytes :=
  match net with
  | NetResult.netExn m =>
    Except.error ⟨502, "Network error connecting to OpenRouter: " ++ m⟩
  | NetResult.resp code text result =>
    if code == 200 then
      match extract_generated_image_from_openrouter_response result with
      | some img => Except.ok img
      | none =>
        Except.error ⟨502, "The AI model did not generate a restored image. Please try again."⟩
    else if code == 429 then
      Except.error ⟨429, "OpenRouter API quota exceeded. Please check your OpenRouter account."⟩
    else if code == 401 then
      Except.error ⟨403, "Invalid OpenRouter API key. Please check your API key."⟩
    else
      Except.error ⟨502, "OpenRouter API error: " ++ text⟩

/-- Which provider adapter the orchestration invokes. -/
inductive ProviderChoice where
  | openrouter
  | googleDirect
deriving DecidableEq, Repr

/-- Model of `restore_photo_with_ai` (server.py lines 129-150). The Google-direct
adapter outcome is abstracted as `gOut` (its internals are not at issue in
any claim); the OpenRouter adapter is `restore_with_openrouter` over the
explicit network outcome `orNet`. The second component instruments the list
of adapter calls actually made (in order). -/
def restore_photo_with_ai (image_data : Bytes) (filename : String)
    (api_key : Option String) (env : Env)
    (orNet : NetResult) (gOut : Except HTTPException Bytes) :
    Except HTTPException Bytes × List ProviderChoice :=
  let openrouter_api_key := pyOr api_key env.OPENROUTER_API_KEY
  if strTruthy openrouter_api_key then
    (restore_with_openrouter image_data filename orNet, [ProviderChoice.openrouter])
  else if strTruthy env.GOOGLE_API_KEY then
    (gOut, [ProviderChoice.googleDirect])
  else
    (Except.error ⟨400, "No API key provided. Please add your OpenRouter or Google API key to continue."⟩,
     [])

/-- Model of `db.photo_restorations.insert_one`. -/
def insert_one (db : List PhotoRestoration) (rec : PhotoRestoration) :
    List PhotoRestoration :=
  db ++ [rec]

/-- Model of `db.photo_restorations.update_one` with an id filter: update the
first record whose id matches. -/
def update_one (db : List PhotoRestoration) (id : String)
    (f : PhotoRestoration → PhotoRestoration) : List PhotoRestoration :=
  match db with
  | [] => []
  | r :: rs => if r.id == id then f r :: rs else r :: update_one rs id f

/-- Model of `db.photo_restorations.find_one` with an id filter. -/
def find_one (db : List PhotoRestoration) (id : String) : Option PhotoRestoration :=
  db.find? (fun r => r.id == id)

/-- The blob filesystem under `STORAGE_DIR`, as filename-to-bytes bindings. -/
abbrev BlobStore := List (String × Bytes)

/-- Writing `restored_path` replaces any previous file of the same name. -/
def blobWrite (blob : BlobStore) (name : String) (data : Bytes) : BlobStore :=
  (name, data) :: blob.filter (fun p => !(p.1 == name))

/-- Existence check and read of `restored_path` in the blob store. -/
def blobLookup (blob : BlobStore) (name : String) : Option Bytes :=
  (blob.find? (fun p => p.1 == name)).map (·.2)

/-- An uploaded file as the endpoint sees it: `file.filename`,
`file.content_type`, and the bytes returned by `await file.read()`. -/
structure UploadedFile where
  filename : Option String
  content_type : Option String
  data : Bytes
deriving Repr

/-- The content-type guard `file.content_type and file.content_type.startswith("image/")`
(a falsy content type — `None` or the empty string — fails, and the empty
string also fails the prefix test, so one boolean captures both). -/
def contentTypeOk (ct : Option String) : Bool :=
  match ct with
  | some s => pyStartsWith s "image/"
  | none => false

/-- The `PhotoRestoration(...)` constructor call in `upload_photo`
(server.py lines 631-636). -/
def initialRecord (file : UploadedFile) (restoration_id : String) : PhotoRestoration :=
  { id := restoration_id
    original_filename := pyOrD file.filename "unknown.jpg"
    restored_filename := "restored_" ++ restoration_id ++ ".jpg"
    status := Status.processing
    processing_time := none
    error_message := none }

/-- The success `$set` document: status completed plus the measured time. -/
def completeRecord (r : PhotoRestoration) (t : Nat) : PhotoRestoration :=
  { r with status := Status.completed, processing_time := some t }

/-- The failure `$set` document: status failed plus the error message. -/
def failRecord (r : PhotoRestoration) (msg : String) : PhotoRestoration :=
  { r with status := Status.failed, error_message := some msg }

/-- Observable side effects of one upload, in program order. -/
inductive Event where
  | dbInsert (rec : PhotoRestoration)
  | adapterCall (p : ProviderChoice)
  | blobWriteEv (name : String) (data : Bytes)
  | dbUpdateCompleted (id : String) (processing_time : Nat)
  | dbUpdateFailed (id : String) (msg : String)
deriving DecidableEq, Repr

/-- Whether an event is a terminal job-state transition. -/
def Event.isTerminal : Event → Bool
  | Event.dbUpdateCompleted _ _ => true
  | Event.dbUpdateFailed _ _ => true
  | _ => false

/-- Model of `upload_photo` (server.py lines 606-704). Nondeterministic inputs are
explicit: `restoration_id` is the generated uuid, `procTime` the measured
duration, `orNet`/`gOut` the provider behaviour. Returns the HTTP-level
outcome, the final database, the final blob store, and the event trace. -/
def upload_photo (file : UploadedFile) (api_key : Option String) (env : Env)
    (orNet : NetResult) (gOut : Except HTTPException Bytes)
    (restoration_id : String) (procTime : Nat)
    (db : List PhotoRestoration) (blob : BlobStore) :
    Except HTTPException PhotoRestoration × List PhotoRestoration × BlobStore × List Event :=
  if !contentTypeOk file.content_type then
    (Except.error ⟨400, "File must be an image"⟩, db, blob, [])
  else if file.data.length < 100 then
    (Except.error ⟨400, "Image file is too small or corrupted"⟩, db, blob, [])
  else if file.data.length > 10 * 1024 * 1024 then
    (Except.error ⟨400, "Image file is too large (max 10MB)"⟩, db, blob, [])
  else
    let restoration := initialRecord file restoration_id
    let db1 := insert_one db restoration
    match restore_photo_with_ai file.data (pyOrD file.filename "unknown.jpg")
        api_key env orNet gOut with
    | (Except.ok restoredBytes, calls) =>
      let blob1 := blobWrite blob restoration.restored_filename restoredBytes
      let db2 := update_one db1 restoration_id (fun r => completeRecord r procTime)
      (Except.ok (completeRecord restoration procTime), db2, blob1,
       Event.dbInsert restoration :: calls.map Event.adapterCall ++
         [Event.blobWriteEv restoration.restored_filename restoredBytes,
          Event.dbUpdateCompleted restoration_id procTime])
    | (Except.error e, calls) =>
      let msg := excStr e
      let db2 := update_one db1 restoration_id (fun r => failRecord r msg)
      (Except.ok (failRecord restoration msg), db2, blob,
       Event.dbInsert restoration :: calls.map Event.adapterCall ++
         [Event.dbUpdateFailed restoration_id msg])

/-- Response of the download endpoint on success: bytes streamed as a
`image/jpeg` attachment named after the restored file. -/
structure DownloadResult where
  bytes : Bytes
  media_type : String
  attachment_filename : String
deriving DecidableEq, Repr

/-- Model of `download_restored_photo` (server.py lines 721-747). The boolean records
whether the blob store was accessed at all. -/
def download_restored_photo (db : List PhotoRestoration) (blob : BlobStore)
    (restoration_id : String) :
    Except HTTPException DownloadResult × Bool :=
  match find_one db restoration_id with
  | none => (Except.error ⟨404, "Restoration not found"⟩, false)
  | some restoration =>
    if !(restoration.status == Status.completed) then
      (Except.error ⟨400, "Photo restoration not completed yet"⟩, false)
    else
      match blobLookup blob restoration.restored_filename with
      | none => (Except.error ⟨404, "Restored image file not found"⟩, true)
      | some bs =>
        (Except.ok ⟨bs, "image/jpeg", restoration.restored_filename⟩, true)

/-! ### Helper lemmas about the database model -/

theorem find_one_append_fresh (db : List PhotoRestoration) (x : PhotoRestoration)
    (h : find_one db x.id = none) : find_one (db ++ [x]) x.id = some x := by
  simp only [find_one] at h ⊢
  rw [List.find?_append, h]
  simp

theorem update_one_append_fresh (db : List PhotoRestoration) (x : PhotoRestoration)
    (f : PhotoRestoration → PhotoRestoration)
    (h : find_one db x.id = none) : update_one (db ++ [x]) x.id f = db ++ [f x] := by
  simp only [find_one, List.find?_eq_none] at h
  induction db with
  | nil => simp [update_one]
  | cons r rs ih =>
    have hr : (r.id == x.id) = false := by
      have := h r (by simp)
      simpa using this
    simp only [List.cons_append, update_one, hr, Bool.false_eq_true, if_false,
      List.cons.injEq, true_and]
    exact ih (fun a ha => h a (by simp [ha]))

theorem find_one_append_updated (db : List PhotoRestoration) (y : PhotoRestoration)
    (id : String) (hy : y.id = id)
    (h : find_one db id = none) : find_one (db ++ [y]) id = some y := by
  simp only [find_one] at h ⊢
  rw [List.find?_append, h]
  simp [hy]

/-- On an upload that passes all three input checks, `upload_photo` reduces to
the post-validation part of its body. -/
theorem upload_photo_valid_eq (file : UploadedFile) (api_key : Option String)
    (env : Env) (orNet : NetResult) (gOut : Except HTTPException Bytes)
    (restoration_id : String) (procTime : Nat)
    (db : List PhotoRestoration) (blob : BlobStore)
    (hct : contentTypeOk file.content_type = true)
    (hmin : 100 ≤ file.data.length) (hmax : file.data.length ≤ 10 * 1024 * 1024) :
    upload_photo file api_key env orNet gOut restoration_id procTime db blob =
      match restore_photo_with_ai file.data (pyOrD file.filename "unknown.jpg")
          api_key env orNet gOut with
      | (Except.ok restoredBytes, calls) =>
        (Except.ok (completeRecord (initialRecord file restoration_id) procTime),
         update_one (insert_one db (initialRecord file restoration_id)) restoration_id
           (fun r => completeRecord r procTime),
         blobWrite blob (initialRecord file restoration_id).restored_filename restoredBytes,
         Event.dbInsert (initialRecord file restoration_id) ::
           calls.map Event.adapterCall ++
           [Event.blobWriteEv (initialRecord file restoration_id).restored_filename restoredBytes,
            Event.dbUpdateCompleted restoration_id procTime])
      | (Except.error e, calls) =>
        (Except.ok (failRecord (initialRecord file restoration_id) (excStr e)),
         update_one (insert_one db (initialRecord file restoration_id)) restoration_id
           (fun r => failRecord r (excStr e)),
         blob,
         Event.dbInsert (initialRecord file restoration_id) ::
           calls.map Event.adapterCall ++
           [Event.dbUpdateFailed restoration_id (excStr e)]) := by
  rw [upload_photo]
  rw [hct]
  simp only [Bool.not_true, Bool.false_eq_true, if_false]
  rw [if_neg (by omega), if_neg (by omega)]

/-- The record-shape invariant of the job lifecycle: the fields that are set
are exactly the ones the current status calls for. -/
def statusInvariant (r : PhotoRestoration) : Prop :=
  match r.status with
  | Status.processing => r.processing_time = none ∧ r.error_message = none
  | Status.completed => r.processing_time ≠ none ∧ r.error_message = none
  | Status.failed => r.error_message ≠ none ∧ r.processing_time = none

/-- Adapter-call events are never terminal transitions. -/
theorem filter_terminal_adapter (calls : List ProviderChoice) :
    (calls.map Event.adapterCall).filter Event.isTerminal = [] := by
  induction calls with
  | nil => rfl
  | cons c cs ih => simp [Event.isTerminal, ih]

/-! ### Concrete fixtures used by witnesses and counterexamples -/

/-- A valid 100-byte upload with an image content type. -/
def pngFile : UploadedFile := ⟨some "photo.png", some "image/png", List.replicate 100 1⟩

/-- Message text whose first data-URI payload decodes to `hello`. -/
def okContent : String := "Here you go: data:image/png;base64,aGVsbG8= enjoy"

/-- A 200 response carrying `okContent` as string message content. -/
def okNet : NetResult := NetResult.resp 200 "" ⟨[ORChoice.mk (ORContent.str okContent)]⟩

/-- No ambient credentials configured. -/
def envNone : Env := ⟨none, none⟩

/-- Only the ambient secondary (direct Google) credential configured. -/
def envG : Env := ⟨none, some "g-key"⟩

/-! ### C4 -/

/-- C4: the upload endpoint rejects, before creating any job (database, blob
store and event trace untouched): any file whose content type is not in the
image family, any payload under 100 bytes, and any payload strictly over
10 MiB; with a valid image content type and a size in [100, 10 MiB] the
checks pass and the request returns a job record. -/
theorem upload_input_validation (file : UploadedFile) (api_key : Option String)
    (env : Env) (orNet : NetResult) (gOut : Except HTTPException Bytes)
    (rid : String) (t : Nat) (db : List PhotoRestoration) (blob : BlobStore) :
    (contentTypeOk file.content_type = false →
      upload_photo file api_key env orNet gOut rid t db blob =
        (Except.error ⟨400, "File must be an image"⟩, db, blob, [])) ∧
    (contentTypeOk file.content_type = true → file.data.length < 100 →
      upload_photo file api_key env orNet gOut rid t db blob =
        (Except.error ⟨400, "Image file is too small or corrupted"⟩, db, blob, [])) ∧
    (contentTypeOk file.content_type = true → 10 * 1024 * 1024 < file.data.length →
      upload_photo file api_key env orNet gOut rid t db blob =
        (Except.error ⟨400, "Image file is too large (max 10MB)"⟩, db, blob, [])) ∧
    (contentTypeOk file.content_type = true → 100 ≤ file.data.length →
      file.data.length ≤ 10 * 1024 * 1024 →
      ∃ rec, (upload_photo file api_key env orNet gOut rid t db blob).1 = Except.ok rec ∧
        ((upload_photo file api_key env orNet gOut rid t db blob).2.2.2).head? =
          some (Event.dbInsert (initialRecord file rid))) := by
  refine ⟨?_, ?_, ?_, ?_⟩
  · intro h
    rw [upload_photo, h]
    simp
  · intro h hsize
    rw [upload_photo, h]
    simp only [Bool.not_true, Bool.false_eq_true, if_false]
    rw [if_pos hsize]
  · intro h hsize
    rw [upload_photo, h]
    simp only [Bool.not_true, Bool.false_eq_true, if_false]
    rw [if_neg (by omega), if_pos (by omega)]
  · intro h hmin hmax
    rw [upload_photo_valid_eq file api_key env orNet gOut rid t db blob h hmin hmax]
    rcases hr : restore_photo_with_ai file.data (pyOrD file.filename "unknown.jpg")
        api_key env orNet gOut with ⟨res, calls⟩
    cases res with
    | ok bs => exact ⟨_, rfl, rfl⟩
    | error e => exact ⟨_, rfl, rfl⟩

/-- C4 witness: a 99-byte image upload is rejected as too small, with the
database, blob store and trace untouched. -/
theorem upload_input_validation_witness :
    upload_photo ⟨some "b.png", some "image/png", List.replicate 99 0⟩ none envNone
        okNet (Except.ok []) "job-c4" 1 [] [] =
      (Except.error ⟨400, "Image file is too small or corrupted"⟩, [], [], []) :=
  (upload_input_validation ⟨some "b.png", some "image/png", List.replicate 99 0⟩ none envNone
      okNet (Except.ok []) "job-c4" 1 [] []).2.1 (by decide) (by decide)

/-! ### C5 -/

/-- C5: provider selection is a strict priority order — a truthy primary
credential (the caller-supplied key, which only feeds the primary, or the
ambient OpenRouter key) selects the OpenRouter adapter; otherwise a truthy
ambient Google key selects the direct Google adapter; otherwise the call
fails with the no-credential error. At most one adapter is invoked. -/
theorem provider_selection_priority (image_data : Bytes) (filename : String)
    (api_key : Option String) (env : Env) (orNet : NetResult)
    (gOut : Except HTTPException Bytes) :
    (restore_photo_with_ai image_data filename api_key env orNet gOut).2.length ≤ 1 ∧
    (strTruthy (pyOr api_key env.OPENROUTER_API_KEY) = true →
      restore_photo_with_ai image_data filename api_key env orNet gOut =
        (restore_with_openrouter image_data filename orNet, [ProviderChoice.openrouter])) ∧
    (strTruthy (pyOr api_key env.OPENROUTER_API_KEY) = false →
      strTruthy env.GOOGLE_API_KEY = true →
      restore_photo_with_ai image_data filename api_key env orNet gOut =
        (gOut, [ProviderChoice.googleDirect])) ∧
    (strTruthy (pyOr api_key env.OPENROUTER_API_KEY) = false →
      strTruthy env.GOOGLE_API_KEY = false →
      restore_photo_with_ai image_data filename api_key env orNet gOut =
        (Except.error ⟨400, "No API key provided. Please add your OpenRouter or Google API key to continue."⟩,
         [])) := by
  refine ⟨?_, ?_, ?_, ?_⟩
  · simp only [restore_photo_with_ai]
    by_cases h1 : strTruthy (pyOr api_key env.OPENROUTER_API_KEY)
    · simp [h1]
    · simp only [Bool.not_eq_true] at h1
      rw [h1]
      by_cases h2 : strTruthy env.GOOGLE_API_KEY
      · simp [h2]
      · simp only [Bool.not_eq_true] at h2
        rw [h2]
        simp
  · intro h
    simp only [restore_photo_with_ai]
    rw [h]
    simp
  · intro h1 h2
    simp only [restore_photo_with_ai]
    rw [h1, h2]
    simp
  · intro h1 h2
    simp only [restore_photo_with_ai]
    rw [h1, h2]
    simp

/-- C5 witness: with a caller-supplied key and no ambient configuration, the
OpenRouter adapter alone is selected. -/
theorem provider_selection_priority_witness :
    restore_photo_with_ai [1, 2] "f.png" (some "caller-key") envNone okNet (Except.ok []) =
      (restore_with_openrouter [1, 2] "f.png" okNet, [ProviderChoice.openrouter]) :=
  (provider_selection_priority [1, 2] "f.png" (some "caller-key") envNone okNet
    (Except.ok [])).2.1 (by decide)

/-! ### C1 -/

/-- C1: for every upload that passes input validation, a job record with
status `processing` is persisted (the first event of the flow) before any
adapter call happens (all adapter calls are later events), and the flow ends
with exactly one terminal transition — `completed` when the adapter returns
bytes, `failed` when it raises — with the returned outcome an `ok` record
(no adapter exception escapes) whose persisted copy is no longer
`processing`. -/
theorem upload_terminal_lifecycle (file : UploadedFile) (api_key : Option String)
    (env : Env) (orNet : NetResult) (gOut : Except HTTPException Bytes)
    (rid : String) (t : Nat) (db : List PhotoRestoration) (blob : BlobStore)
    (hct : contentTypeOk file.content_type = true)
    (hmin : 100 ≤ file.data.length) (hmax : file.data.length ≤ 10 * 1024 * 1024)
    (hfresh : find_one db rid = none) :
    ∃ (rec : PhotoRestoration) (tail : List Event),
      (upload_photo file api_key env orNet gOut rid t db blob).1 = Except.ok rec ∧
      (upload_photo file api_key env orNet gOut rid t db blob).2.2.2 =
        Event.dbInsert (initialRecord file rid) :: tail ∧
      (initialRecord file rid).status = Status.processing ∧
      (tail.filter Event.isTerminal).length = 1 ∧
      (rec.status = Status.completed ∨ rec.status = Status.failed) ∧
      (∀ bs, (restore_photo_with_ai file.data (pyOrD file.filename "unknown.jpg")
          api_key env orNet gOut).1 = Except.ok bs →
        rec = completeRecord (initialRecord file rid) t) ∧
      (∀ e, (restore_photo_with_ai file.data (pyOrD file.filename "unknown.jpg")
          api_key env orNet gOut).1 = Except.error e →
        rec = failRecord (initialRecord file rid) (excStr e)) ∧
      find_one (upload_photo file api_key env orNet gOut rid t db blob).2.1 rid =
        some rec := by
  rw [upload_photo_valid_eq file api_key env orNet gOut rid t db blob hct hmin hmax]
  rcases hr : restore_photo_with_ai file.data (pyOrD file.filename "unknown.jpg")
      api_key env orNet gOut with ⟨res, calls⟩
  cases res with
  | ok bs =>
    refine ⟨completeRecord (initialRecord file rid) t,
      calls.map Event.adapterCall ++
        [Event.blobWriteEv (initialRecord file rid).restored_filename bs,
         Event.dbUpdateCompleted rid t],
      rfl, rfl, rfl, ?_, Or.inl rfl, fun _ _ => rfl, ?_, ?_⟩
    · rw [List.filter_append, filter_terminal_adapter]
      rfl
    · intro e he
      simp at he
    · have h1 : update_one (insert_one db (initialRecord file rid)) rid
          (fun r => completeRecord r t) =
          db ++ [completeRecord (initialRecord file rid) t] :=
        update_one_append_fresh db (initialRecord file rid) _ hfresh
      show find_one (update_one (insert_one db (initialRecord file rid)) rid
          (fun r => completeRecord r t)) rid = _
      rw [h1]
      exact find_one_append_updated db _ rid rfl hfresh
  | error e =>
    refine ⟨failRecord (initialRecord file rid) (excStr e),
      calls.map Event.adapterCall ++ [Event.dbUpdateFailed rid (excStr e)],
      rfl, rfl, rfl, ?_, Or.inr rfl, ?_, ?_, ?_⟩
    · rw [List.filter_append, filter_terminal_adapter]
      rfl
    · intro bs hb
      simp at hb
    · intro e2 he2
      simp only [Except.error.injEq] at he2
      rw [he2]
    · have h1 : update_one (insert_one db (initialRecord file rid)) rid
          (fun r => failRecord r (excStr e)) =
          db ++ [failRecord (initialRecord file rid) (excStr e)] :=
        update_one_append_fresh db (initialRecord file rid) _ hfresh
      show find_one (update_one (insert_one db (initialRecord file rid)) rid
          (fun r => failRecord r (excStr e))) rid = _
      rw [h1]
      exact find_one_append_updated db _ rid rfl hfresh

/-- C1 witness: a valid upload with a primary key and a 200 response carrying
a data-URI ends as one `ok` record, with the `processing` insert first and
exactly one terminal transition. -/
theorem upload_terminal_lifecycle_witness :
    ∃ (rec : PhotoRestoration) (tail : List Event),
      (upload_photo pngFile (some "sk-or") envNone okNet (Except.ok []) "job-c1" 5 [] []).1 =
        Except.ok rec ∧
      (upload_photo pngFile (some "sk-or") envNone okNet (Except.ok []) "job-c1" 5 [] []).2.2.2 =
        Event.dbInsert (initialRecord pngFile "job-c1") :: tail ∧
      (initialRecord pngFile "job-c1").status = Status.processing ∧
      (tail.filter Event.isTerminal).length = 1 ∧
      (rec.status = Status.completed ∨ rec.status = Status.failed) := by
  obtain ⟨rec, tail, h1, h2, h3, h4, h5, -, -, -⟩ :=
    upload_terminal_lifecycle pngFile (some "sk-or") envNone okNet (Except.ok [])
      "job-c1" 5 [] [] (by decide) (by decide) (by decide) (by decide)
  exact ⟨rec, tail, h1, h2, h3, h4, h5⟩

/-! ### C2 -/

/-- C2: the persisted record always satisfies the field/status invariant —
`processing` with both optional fields unset when created, and after the
single terminal transition either `completed` with only `processing_time`
newly set or `failed` with only `error_message` newly set (the returned and
persisted record is literally the initial record with just those fields
updated). -/
theorem job_record_invariant (file : UploadedFile) (api_key : Option String)
    (env : Env) (orNet : NetResult) (gOut : Except HTTPException Bytes)
    (rid : String) (t : Nat) (db : List PhotoRestoration) (blob : BlobStore)
    (hct : contentTypeOk file.content_type = true)
    (hmin : 100 ≤ file.data.length) (hmax : file.data.length ≤ 10 * 1024 * 1024)
    (hfresh : find_one db rid = none) :
    statusInvariant (initialRecord file rid) ∧
    (initialRecord file rid).status = Status.processing ∧
    find_one (insert_one db (initialRecord file rid)) rid =
      some (initialRecord file rid) ∧
    (∀ rec, (upload_photo file api_key env orNet gOut rid t db blob).1 = Except.ok rec →
      statusInvariant rec ∧
      find_one (upload_photo file api_key env orNet gOut rid t db blob).2.1 rid =
        some rec ∧
      (∀ bs, (restore_photo_with_ai file.data (pyOrD file.filename "unknown.jpg")
          api_key env orNet gOut).1 = Except.ok bs →
        rec = completeRecord (initialRecord file rid) t) ∧
      (∀ e, (restore_photo_with_ai file.data (pyOrD file.filename "unknown.jpg")
          api_key env orNet gOut).1 = Except.error e →
        rec = failRecord (initialRecord file rid) (excStr e))) := by
  refine ⟨⟨rfl, rfl⟩, rfl, find_one_append_updated db _ rid rfl hfresh, ?_⟩
  rw [upload_photo_valid_eq file api_key env orNet gOut rid t db blob hct hmin hmax]
  rcases hr : restore_photo_with_ai file.data (pyOrD file.filename "unknown.jpg")
      api_key env orNet gOut with ⟨res, calls⟩
  cases res with
  | ok bs =>
    intro rec hrec
    simp only [Except.ok.injEq] at hrec
    subst hrec
    refine ⟨⟨by simp [completeRecord], rfl⟩, ?_, fun _ _ => rfl, ?_⟩
    · have h1 : update_one (insert_one db (initialRecord file rid)) rid
          (fun r => completeRecord r t) =
          db ++ [completeRecord (initialRecord file rid) t] :=
        update_one_append_fresh db (initialRecord file rid) _ hfresh
      show find_one (update_one (insert_one db (initialRecord file rid)) rid
          (fun r => completeRecord r t)) rid = _
      rw [h1]
      exact find_one_append_updated db _ rid rfl hfresh
    · intro e2 he2
      simp at he2
  | error e =>
    intro rec hrec
    simp only [Except.ok.injEq] at hrec
    subst hrec
    refine ⟨⟨by simp [failRecord], rfl⟩, ?_, ?_, ?_⟩
    · have h1 : update_one (insert_one db (initialRecord file rid)) rid
          (fun r => failRecord r (excStr e)) =
          db ++ [failRecord (initialRecord file rid) (excStr e)] :=
        update_one_append_fresh db (initialRecord file rid) _ hfresh
      show find_one (update_one (insert_one db (initialRecord file rid)) rid
          (fun r => failRecord r (excStr e))) rid = _
      rw [h1]
      exact find_one_append_updated db _ rid rfl hfresh
    · intro bs hb
      simp at hb
    · intro e2 he2
      simp only [Except.error.injEq] at he2
      rw [he2]

/-- C2 witness: concrete valid upload over the Google-direct path whose
adapter succeeds; the theorem applies with all hypotheses discharged. -/
theorem job_record_invariant_witness :
    statusInvariant (initialRecord pngFile "job-c2") ∧
    (initialRecord pngFile "job-c2").status = Status.processing := by
  obtain ⟨h1, h2, -, -⟩ :=
    job_record_invariant pngFile none envG okNet (Except.ok [9, 9]) "job-c2" 3 [] []
      (by decide) (by decide) (by decide) (by decide)
  exact ⟨h1, h2⟩

/-! ### C3 -/

/-- C3 counterexample: a valid 100-byte image upload with no caller key and no
ambient keys. The claim says no job is persisted for such an upload; in fact
the flow persists the job first and then marks it failed — the final database
holds exactly that failed record, and the upload returns it as an `ok`
response rather than an error. -/
theorem no_credential_persists_job_counterexample :
    (upload_photo pngFile none envNone okNet (Except.ok []) "job-c3" 1 [] []).2.1 =
      [failRecord (initialRecord pngFile "job-c3")
        (excStr ⟨400, "No API key provided. Please add your OpenRouter or Google API key to continue."⟩)] ∧
    (upload_photo pngFile none envNone okNet (Except.ok []) "job-c3" 1 [] []).2.1 ≠ [] ∧
    (upload_photo pngFile none envNone okNet (Except.ok []) "job-c3" 1 [] []).1 =
      Except.ok (failRecord (initialRecord pngFile "job-c3")
        (excStr ⟨400, "No API key provided. Please add your OpenRouter or Google API key to continue."⟩)) := by
  refine ⟨rfl, ?_, rfl⟩
  decide

/-- C3 amended: with no caller-supplied and no ambient credential, a valid
upload makes no adapter call and surfaces the no-credential 400 error, but
only after the job record has been created and persisted: the job ends
persisted with status `failed` carrying the no-credential message (rather
than never being created). -/
theorem no_credential_rejection (file : UploadedFile) (api_key : Option String)
    (env : Env) (orNet : NetResult) (gOut : Except HTTPException Bytes)
    (rid : String) (t : Nat) (db : List PhotoRestoration) (blob : BlobStore)
    (hct : contentTypeOk file.content_type = true)
    (hmin : 100 ≤ file.data.length) (hmax : file.data.length ≤ 10 * 1024 * 1024)
    (hfresh : find_one db rid = none)
    (hnoOR : strTruthy (pyOr api_key env.OPENROUTER_API_KEY) = false)
    (hnoG : strTruthy env.GOOGLE_API_KEY = false) :
    (upload_photo file api_key env orNet gOut rid t db blob).1 =
      Except.ok (failRecord (initialRecord file rid)
        (excStr ⟨400, "No API key provided. Please add your OpenRouter or Google API key to continue."⟩)) ∧
    find_one (upload_photo file api_key env orNet gOut rid t db blob).2.1 rid =
      some (failRecord (initialRecord file rid)
        (excStr ⟨400, "No API key provided. Please add your OpenRouter or Google API key to continue."⟩)) ∧
    (∀ p, Event.adapterCall p ∉ (upload_photo file api_key env orNet gOut rid t db blob).2.2.2) := by
  rw [upload_photo_valid_eq file api_key env orNet gOut rid t db blob hct hmin hmax]
  have hres : restore_photo_with_ai file.data (pyOrD file.filename "unknown.jpg")
      api_key env orNet gOut =
      (Except.error ⟨400, "No API key provided. Please add your OpenRouter or Google API key to continue."⟩,
       []) := by
    simp only [restore_photo_with_ai]
    rw [hnoOR, hnoG]
    simp
  rw [hres]
  refine ⟨rfl, ?_, ?_⟩
  · have h1 : update_one (insert_one db (initialRecord file rid)) rid
        (fun r => failRecord r
          (excStr ⟨400, "No API key provided. Please add your OpenRouter or Google API key to continue."⟩)) =
        db ++ [failRecord (initialRecord file rid)
          (excStr ⟨400, "No API key provided. Please add your OpenRouter or Google API key to continue."⟩)] :=
      update_one_append_fresh db (initialRecord file rid) _ hfresh
    show find_one (update_one (insert_one db (initialRecord file rid)) rid _) rid = _
    rw [h1]
    exact find_one_append_updated db _ rid rfl hfresh
  · intro p
    simp [Event.adapterCall]

/-- C3 witness: the amended behaviour at a concrete credential-free upload. -/
theorem no_credential_rejection_witness :
    (upload_photo pngFile none envNone okNet (Except.ok []) "job-c3w" 2 [] []).1 =
      Except.ok (failRecord (initialRecord pngFile "job-c3w")
        (excStr ⟨400, "No API key provided. Please add your OpenRouter or Google API key to continue."⟩)) ∧
    (∀ p, Event.adapterCall p ∉
      (upload_photo pngFile none envNone okNet (Except.ok []) "job-c3w" 2 [] []).2.2.2) := by
  obtain ⟨h1, -, h3⟩ :=
    no_credential_rejection pngFile none envNone okNet (Except.ok []) "job-c3w" 2 [] []
      (by decide) (by decide) (by decide) (by decide) (by decide) (by decide)
  exact ⟨h1, h3⟩

/-! ### C6 -/

/-- C6: on a non-success HTTP status the primary adapter classifies the
outcome — 429 becomes the quota-exceeded failure, 401 the invalid-credential
(403) failure, anything else a 502 carrying the raw provider text — and in
the upload flow the job transitions to `failed` with the corresponding
message while the fallback (Google-direct) adapter is never called. -/
theorem openrouter_error_classification (file : UploadedFile)
    (api_key : Option String) (env : Env) (gOut : Except HTTPException Bytes)
    (rid : String) (t : Nat) (db : List PhotoRestoration) (blob : BlobStore)
    (code : Nat) (text : String) (result : ORResult)
    (hct : contentTypeOk file.content_type = true)
    (hmin : 100 ≤ file.data.length) (hmax : file.data.length ≤ 10 * 1024 * 1024)
    (hfresh : find_one db rid = none)
    (hkey : strTruthy (pyOr api_key env.OPENROUTER_API_KEY) = true)
    (hcode : code ≠ 200) :
    ∃ e : HTTPException,
      restore_with_openrouter file.data (pyOrD file.filename "unknown.jpg")
        (NetResult.resp code text result) = Except.error e ∧
      (code = 429 →
        e = ⟨429, "OpenRouter API quota exceeded. Please check your OpenRouter account."⟩) ∧
      (code = 401 →
        e = ⟨403, "Invalid OpenRouter API key. Please check your API key."⟩) ∧
      (code ≠ 429 → code ≠ 401 → e = ⟨502, "OpenRouter API error: " ++ text⟩) ∧
      (upload_photo file api_key env (NetResult.resp code text result) gOut
        rid t db blob).1 =
        Except.ok (failRecord (initialRecord file rid) (excStr e)) ∧
      find_one (upload_photo file api_key env (NetResult.resp code text result) gOut
        rid t db blob).2.1 rid =
        some (failRecord (initialRecord file rid) (excStr e)) ∧
      Event.adapterCall ProviderChoice.googleDirect ∉
        (upload_photo file api_key env (NetResult.resp code text result) gOut
          rid t db blob).2.2.2 := by
  obtain ⟨e, he, hc1, hc2, hc3⟩ :
      ∃ e : HTTPException,
        restore_with_openrouter file.data (pyOrD file.filename "unknown.jpg")
          (NetResult.resp code text result) = Except.error e ∧
        (code = 429 →
          e = ⟨429, "OpenRouter API quota exceeded. Please check your OpenRouter account."⟩) ∧
        (code = 401 →
          e = ⟨403, "Invalid OpenRouter API key. Please check your API key."⟩) ∧
        (code ≠ 429 → code ≠ 401 → e = ⟨502, "OpenRouter API error: " ++ text⟩) := by
    by_cases h429 : code = 429
    · subst h429
      refine ⟨⟨429, "OpenRouter API quota exceeded. Please check your OpenRouter account."⟩,
        rfl, fun _ => rfl, ?_, ?_⟩
      · intro h; omega
      · intro hne _; exact absurd rfl hne
    · by_cases h401 : code = 401
      · subst h401
        refine ⟨⟨403, "Invalid OpenRouter API key. Please check your API key."⟩,
          rfl, ?_, fun _ => rfl, ?_⟩
        · intro h; omega
        · intro _ hne; exact absurd rfl hne
      · have e200 : (code == 200) = false := beq_false_of_ne hcode
        have e429 : (code == 429) = false := beq_false_of_ne h429
        have e401 : (code == 401) = false := beq_false_of_ne h401
        refine ⟨⟨502, "OpenRouter API error: " ++ text⟩, ?_,
          fun h => absurd h h429, fun h => absurd h h401, fun _ _ => rfl⟩
        simp only [restore_with_openrouter, e200, e429, e401,
          Bool.false_eq_true, if_false]
  have hres : restore_photo_with_ai file.data (pyOrD file.filename "unknown.jpg")
      api_key env (NetResult.resp code text result) gOut =
      (Except.error e, [ProviderChoice.openrouter]) := by
    simp only [restore_photo_with_ai]
    rw [hkey]
    simp [he]
  rw [upload_photo_valid_eq file api_key env (NetResult.resp code text result) gOut
    rid t db blob hct hmin hmax]
  rw [hres]
  refine ⟨e, he, hc1, hc2, hc3, rfl, ?_, ?_⟩
  · have h1 : update_one (insert_one db (initialRecord file rid)) rid
        (fun r => failRecord r (excStr e)) =
        db ++ [failRecord (initialRecord file rid) (excStr e)] :=
      update_one_append_fresh db (initialRecord file rid) _ hfresh
    show find_one (update_one (insert_one db (initialRecord file rid)) rid _) rid = _
    rw [h1]
    exact find_one_append_updated db _ rid rfl hfresh
  · simp

/-- C6 witness: a 429 from the provider with a primary key configured ends
the concrete upload in `failed` with the quota message. -/
theorem openrouter_error_classification_witness :
    restore_with_openrouter pngFile.data (pyOrD pngFile.filename "unknown.jpg")
      (NetResult.resp 429 "limit" ⟨[]⟩) =
      Except.error ⟨429, "OpenRouter API quota exceeded. Please check your OpenRouter account."⟩ ∧
    (upload_photo pngFile (some "sk") envNone (NetResult.resp 429 "limit" ⟨[]⟩)
      (Except.ok []) "job-c6" 4 [] []).1 =
      Except.ok (failRecord (initialRecord pngFile "job-c6")
        (excStr ⟨429, "OpenRouter API quota exceeded. Please check your OpenRouter account."⟩)) ∧
    Event.adapterCall ProviderChoice.googleDirect ∉
      (upload_photo pngFile (some "sk") envNone (NetResult.resp 429 "limit" ⟨[]⟩)
        (Except.ok []) "job-c6" 4 [] []).2.2.2 := by
  obtain ⟨e, he, hc1, -, -, h5, -, h7⟩ :=
    openrouter_error_classification pngFile (some "sk") envNone (Except.ok [])
      "job-c6" 4 [] [] 429 "limit" ⟨[]⟩
      (by decide) (by decide) (by decide) (by decide) (by decide) (by decide)
  have hee : e = ⟨429, "OpenRouter API quota exceeded. Please check your OpenRouter account."⟩ :=
    hc1 rfl
  subst hee
  exact ⟨he, h5, h7⟩

/-! ### C7 -/

/-- C7 counterexample: a string message content containing a well-formed
data-URI (`aGVsbG8=`, decoding to `hello`) preceded by a data-URI whose
payload `abc` has malformed base64. The claim says extraction succeeds and
returns the decoded bytes of the first well-formed match; in fact the code
decodes only the first regex match and returns `None` when that fails. -/
theorem extraction_first_match_counterexample :
    findAllDataURI "data:image/png;base64,abc and data:image/png;base64,aGVsbG8=".data =
      ["abc".data, "aGVsbG8=".data] ∧
    pyB64decode "aGVsbG8=".data = some [104, 101, 108, 108, 111] ∧
    pyB64decode "abc".data = none ∧
    extract_generated_image_from_openrouter_response
      ⟨[ORChoice.mk (ORContent.str
        "data:image/png;base64,abc and data:image/png;base64,aGVsbG8=")]⟩ = none := by
  refine ⟨by decide, by decide, by decide, by decide⟩

/-- C7 amended: extraction over string content succeeds via the text-pattern
path precisely when the FIRST data-URI regex match has decodable base64, and
then returns its decoded bytes even with no structured media field; a
list-shaped content is handled by finding a part whose type is `image_url`
with a data-URI value. -/
theorem extraction_data_uri_paths (s : String) (rest : List ORChoice)
    (m : List Char) (ms : List (List Char)) (bs : Bytes)
    (hfind : findAllDataURI s.data = m :: ms)
    (hdec : pyB64decode m = some bs) :
    extract_generated_image_from_openrouter_response
      ⟨ORChoice.mk (ORContent.str s) :: rest⟩ = some bs ∧
    (∀ (url b2 : String) (bs2 : Bytes) (items : List ORItem)
        (rest2 : List ORChoice),
      pyStartsWith url "data:image/" = true →
      splitSecond url = some b2 →
      pyB64decode b2.data = some bs2 →
      extract_generated_image_from_openrouter_response
        ⟨ORChoice.mk (ORContent.list (ORItem.dict (some "image_url") url :: items)) :: rest2⟩ =
        some bs2) := by
  constructor
  · simp only [extract_generated_image_from_openrouter_response, hfind, hdec]
  · intro url b2 bs2 items rest2 hst hsp hdec2
    simp only [extract_generated_image_from_openrouter_response, scanListItems,
      hst, hsp, hdec2, if_true]
    simp

/-- C7 witness: a message text whose only data-URI decodes to `hello` is
extracted via the text-pattern path. -/
theorem extraction_data_uri_paths_witness :
    extract_generated_image_from_openrouter_response
      ⟨[ORChoice.mk (ORContent.str okContent)]⟩ = some [104, 101, 108, 108, 111] :=
  (extraction_data_uri_paths okContent [] "aGVsbG8=".data []
    [104, 101, 108, 108, 111] (by decide) (by decide)).1

/-! ### C8 -/

/-- C8 counterexample: string message content with two data-URI candidates,
the first (`abcde`) malformed and the second (`aGk=`, decoding to `hi`)
valid. The claim says extraction continues past the decode failure and
returns the bytes of the second candidate; the code returns `None`. -/
theorem extraction_swallow_counterexample :
    findAllDataURI "data:image/jpeg;base64,abcde also data:image/jpeg;base64,aGk=".data =
      ["abcde".data, "aGk=".data] ∧
    pyB64decode "abcde".data = none ∧
    pyB64decode "aGk=".data = some [104, 105] ∧
    extract_generated_image_from_openrouter_response
      ⟨[ORChoice.mk (ORContent.str
        "data:image/jpeg;base64,abcde also data:image/jpeg;base64,aGk=")]⟩ = none := by
  refine ⟨by decide, by decide, by decide, by decide⟩

/-- C8 amended: a base64 decode failure is swallowed with extraction moving
on to the next candidate only in the list-shaped content path (there, a
malformed first candidate followed by a valid second one yields the second
one); in the string content path only the first regex match is ever
decoded and its failure makes extraction return `None` regardless of later
candidates. -/
theorem extraction_decode_failure_handling
    (url1 url2 b1 b2 : String) (bs : Bytes)
    (items : List ORItem) (rest : List ORChoice)
    (h1s : pyStartsWith url1 "data:image/" = true)
    (h1p : splitSecond url1 = some b1)
    (h1d : pyB64decode b1.data = none)
    (h2s : pyStartsWith url2 "data:image/" = true)
    (h2p : splitSecond url2 = some b2)
    (h2d : pyB64decode b2.data = some bs) :
    extract_generated_image_from_openrouter_response
      ⟨ORChoice.mk (ORContent.list
        (ORItem.dict (some "image_url") url1 ::
         ORItem.dict (some "image_url") url2 :: items)) :: rest⟩ = some bs ∧
    (∀ (s : String) (m : List Char) (ms : List (List Char)) (rest2 : List ORChoice),
      findAllDataURI s.data = m :: ms →
      pyB64decode m = none →
      extract_generated_image_from_openrouter_response
        ⟨ORChoice.mk (ORContent.str s) :: rest2⟩ = none) := by
  constructor
  · simp only [extract_generated_image_from_openrouter_response, scanListItems,
      h1s, h1p, h1d, h2s, h2p, h2d, if_true]
    simp
  · intro s m ms rest2 hfind hdec
    simp only [extract_generated_image_from_openrouter_response, hfind, hdec]

/-- C8 witness: list-shaped content whose first data-URI part is malformed
and whose second decodes to `hi` extracts the bytes of the second part. -/
theorem extraction_decode_failure_handling_witness :
    extract_generated_image_from_openrouter_response
      ⟨[ORChoice.mk (ORContent.list
        [ORItem.dict (some "image_url") "data:image/png;base64,abc",
         ORItem.dict (some "image_url") "data:image/png;base64,aGk="])]⟩ =
      some [104, 105] :=
  (extraction_decode_failure_handling
    "data:image/png;base64,abc" "data:image/png;base64,aGk=" "abc" "aGk="
    [104, 105] [] [] (by decide) (by decide) (by decide) (by decide)
    (by decide) (by decide)).1

/-! ### C9 -/

/-- C9: the download endpoint returns the restored bytes as an attachment if
and only if the job exists with status `completed` and its blob exists; an
unknown id gives 404 without blob access, a non-completed job gives the
not-ready 400 without blob access, and a completed job with a missing blob
gives 404. -/
theorem download_completed_iff (db : List PhotoRestoration) (blob : BlobStore)
    (restoration_id : String) :
    (find_one db restoration_id = none →
      download_restored_photo db blob restoration_id =
        (Except.error ⟨404, "Restoration not found"⟩, false)) ∧
    (∀ rec, find_one db restoration_id = some rec → rec.status ≠ Status.completed →
      download_restored_photo db blob restoration_id =
        (Except.error ⟨400, "Photo restoration not completed yet"⟩, false)) ∧
    (∀ rec, find_one db restoration_id = some rec → rec.status = Status.completed →
      blobLookup blob rec.restored_filename = none →
      download_restored_photo db blob restoration_id =
        (Except.error ⟨404, "Restored image file not found"⟩, true)) ∧
    (∀ rec bs, find_one db restoration_id = some rec → rec.status = Status.completed →
      blobLookup blob rec.restored_filename = some bs →
      download_restored_photo db blob restoration_id =
        (Except.ok ⟨bs, "image/jpeg", rec.restored_filename⟩, true)) ∧
    ((∃ d, (download_restored_photo db blob restoration_id).1 = Except.ok d) ↔
      ∃ rec, find_one db restoration_id = some rec ∧ rec.status = Status.completed ∧
        (blobLookup blob rec.restored_filename).isSome = true) := by
  refine ⟨?_, ?_, ?_, ?_, ?_⟩
  · intro h
    simp only [download_restored_photo, h]
  · intro rec h hne
    have hb : (rec.status == Status.completed) = false := beq_false_of_ne hne
    simp only [download_restored_photo, h, hb]
    simp
  · intro rec h hs hbl
    have hb : (rec.status == Status.completed) = true := beq_iff_eq.mpr hs
    simp only [download_restored_photo, h, hb, hbl]
    simp
  · intro rec bs h hs hbl
    have hb : (rec.status == Status.completed) = true := beq_iff_eq.mpr hs
    simp only [download_restored_photo, h, hb, hbl]
    simp
  · constructor
    · rintro ⟨d, hd⟩
      cases hf : find_one db restoration_id with
      | none =>
        have heq : download_restored_photo db blob restoration_id =
            (Except.error ⟨404, "Restoration not found"⟩, false) := by
          simp only [download_restored_photo, hf]
        rw [heq] at hd
        simp at hd
      | some rec =>
        by_cases hs : rec.status = Status.completed
        · have hb : (rec.status == Status.completed) = true := beq_iff_eq.mpr hs
          cases hbl : blobLookup blob rec.restored_filename with
          | none =>
            have heq : download_restored_photo db blob restoration_id =
                (Except.error ⟨404, "Restored image file not found"⟩, true) := by
              simp only [download_restored_photo, hf, hb, hbl]
              simp
            rw [heq] at hd
            simp at hd
          | some bs => exact ⟨rec, rfl, hs, by rw [hbl]; rfl⟩
        · have hb : (rec.status == Status.completed) = false := beq_false_of_ne hs
          have heq : download_restored_photo db blob restoration_id =
              (Except.error ⟨400, "Photo restoration not completed yet"⟩, false) := by
            simp only [download_restored_photo, hf, hb]
            simp
          rw [heq] at hd
          simp at hd
    · rintro ⟨rec, hf, hs, hbl⟩
      cases hbl2 : blobLookup blob rec.restored_filename with
      | none => rw [hbl2] at hbl; simp at hbl
      | some bs =>
        refine ⟨⟨bs, "image/jpeg", rec.restored_filename⟩, ?_⟩
        have hb : (rec.status == Status.completed) = true := beq_iff_eq.mpr hs
        simp only [download_restored_photo, hf, hb, hbl2]
        simp

/-- C9 witness: downloading a job that is still `processing` is rejected as
not ready with no blob access. -/
theorem download_completed_iff_witness :
    download_restored_photo [initialRecord pngFile "job-c9"] [] "job-c9" =
      (Except.error ⟨400, "Photo restoration not completed yet"⟩, false) :=
  (download_completed_iff [initialRecord pngFile "job-c9"] [] "job-c9").2.1
    (initialRecord pngFile "job-c9") (by decide) (by decide)

/-! ### C10 -/

/-- C10: the upload endpoint runs the restoration synchronously, so whenever
it returns a job record that record is already terminal — `completed` or
`failed`, never `processing` — although the persisted record passed through
`processing` first (the trace starts with the `processing` insert). -/
theorem upload_returns_terminal (file : UploadedFile) (api_key : Option String)
    (env : Env) (orNet : NetResult) (gOut : Except HTTPException Bytes)
    (rid : String) (t : Nat) (db : List PhotoRestoration) (blob : BlobStore) :
    ∀ rec, (upload_photo file api_key env orNet gOut rid t db blob).1 = Except.ok rec →
      (rec.status = Status.completed ∨ rec.status = Status.failed) ∧
      ∃ tail, (upload_photo file api_key env orNet gOut rid t db blob).2.2.2 =
        Event.dbInsert (initialRecord file rid) :: tail ∧
        (initialRecord file rid).status = Status.processing := by
  intro rec hrec
  by_cases hct : contentTypeOk file.content_type = true
  · by_cases hmin : file.data.length < 100
    · exfalso
      rw [upload_photo] at hrec
      rw [hct] at hrec
      simp only [Bool.not_true, Bool.false_eq_true, if_false] at hrec
      rw [if_pos hmin] at hrec
      simp at hrec
    · by_cases hmax : 10 * 1024 * 1024 < file.data.length
      · exfalso
        rw [upload_photo] at hrec
        rw [hct] at hrec
        simp only [Bool.not_true, Bool.false_eq_true, if_false] at hrec
        rw [if_neg hmin, if_pos hmax] at hrec
        simp at hrec
      · rw [upload_photo_valid_eq file api_key env orNet gOut rid t db blob hct
          (by omega) (by omega)] at hrec ⊢
        rcases hr : restore_photo_with_ai file.data (pyOrD file.filename "unknown.jpg")
            api_key env orNet gOut with ⟨res, calls⟩
        rw [hr] at hrec
        cases res with
        | ok bs =>
          simp only [Except.ok.injEq] at hrec
          subst hrec
          exact ⟨Or.inl rfl, _, rfl, rfl⟩
        | error e =>
          simp only [Except.ok.injEq] at hrec
          subst hrec
          exact ⟨Or.inr rfl, _, rfl, rfl⟩
  · exfalso
    rw [upload_photo] at hrec
    rw [Bool.not_eq_true] at hct
    rw [hct] at hrec
    simp at hrec

/-- C10 witness: a concrete successful upload returns the `completed` record
while its trace starts with the `processing` insert. -/
theorem upload_returns_terminal_witness :
    ((completeRecord (initialRecord pngFile "job-c10") 7).status = Status.completed ∨
     (completeRecord (initialRecord pngFile "job-c10") 7).status = Status.failed) ∧
    ∃ tail, (upload_photo pngFile (some "k") envNone okNet (Except.ok [])
        "job-c10" 7 [] []).2.2.2 =
      Event.dbInsert (initialRecord pngFile "job-c10") :: tail ∧
      (initialRecord pngFile "job-c10").status = Status.processing :=
  upload_returns_terminal pngFile (some "k") envNone okNet (Except.ok [])
    "job-c10" 7 [] [] (completeRecord (initialRecord pngFile "job-c10") 7) rfl

end Heirloom
